import Mathlib

/-!
Verification of the ER_Route_tracker core: a shallow embedding of the
telemetry sampling and coordinate-normalization engine found in
`src/tracker.rs`, `src/route.rs` and `src/custom_pointers.rs`.

Modelling conventions:
* Rust `Instant` values and durations are `Nat` milliseconds; a monotonic
  "now" reading is passed explicitly to each operation, and
  `t.elapsed()` becomes `now - t` (truncated `Nat` subtraction, which is
  faithful because `Instant` arithmetic never yields a negative elapsed
  duration).
* `f32` coordinate values are modelled as `Int` (the engine only copies
  them or passes them whole to the transformer; it performs no rounding
  arithmetic on them), and the single `f64` division in `route.rs`
  (`timestamp_ms as f64 / 1000.0`) is modelled as exact division in `ℚ`.
* Reads of foreign-process memory (`PointerChain::read`,
  `global_position.read`, `read_map_id`) are inputs of each tick,
  modelled as `Option` values in a `TickEvent`.
* Filesystem outcomes during save are inputs (`FsEnv`), and the save
  routine also reports the list of I/O actions it attempted
  (`FsEffect`), so that "no I/O before the empty-route check" is a
  provable statement.
-/

/-- Route point with timestamp, from `src/route.rs` (`RoutePoint`): local
coordinates, global coordinates, packed tile id, human-readable tile
string, elapsed milliseconds since recording start, and the mount flag. -/
structure RoutePoint where
  x : Int
  y : Int
  z : Int
  global_x : Int
  global_y : Int
  global_z : Int
  map_id : Nat
  map_id_str : String
  timestamp_ms : Nat
  on_torrent : Bool
deriving DecidableEq, Repr

/-- Saved route file structure, from `src/route.rs` (`SavedRoute`). The
`duration_secs` field (an `f64` in the source) is modelled in `ℚ`. -/
structure SavedRoute where
  name : String
  recorded_at : String
  duration_secs : ℚ
  interval_ms : Nat
  point_count : Nat
  points : List RoutePoint

/-- Modelled from the spec: `WorldPositionTransformer::format_map_id`
(its source file `coordinate_transformer.rs` is not under `src/`).
Renders the packed 32-bit tile id into its four constituent 8-bit
fields as a human-readable string. No claim depends on the exact text. -/
def format_map_id (m : Nat) : String :=
  "m" ++ toString (m / 0x1000000 % 256) ++ "_" ++ toString (m / 0x10000 % 256)
    ++ "_" ++ toString (m / 0x100 % 256) ++ "_" ++ toString (m % 256)

/-- One row of the tile-adjacency ("anchor") table: a tile id, a
reference (anchor) tile id, and a translation on the x/z axes. -/
structure AnchorRow where
  tile : Nat
  anchorTile : Nat
  dx : Int
  dz : Int
deriving DecidableEq, Repr

/-- Modelled from the spec: the chained-anchor resolution step of the
CoordinateTransformer (§4.3; `coordinate_transformer.rs` is not under
`src/`). Follows anchor links, accumulating translations, until the
current tile has no row of its own (the absolute frame); iteration is
bounded by fuel (the table's row count), so a cycle is a failure, not
an infinite loop. -/
def chain_translate (rows : List AnchorRow) : Nat → Nat → Int → Int → Option (Int × Int)
  | 0, _, _, _ => none
  | fuel + 1, tile, accx, accz =>
    match rows.find? (fun r => r.tile == tile) with
    | none => some (accx, accz)
    | some r => chain_translate rows fuel r.anchorTile (accx + r.dx) (accz + r.dz)

/-- Modelled from the spec: `local_to_world_first` of the
CoordinateTransformer (§4.3; `coordinate_transformer.rs` is not under
`src/`). Looks the tile id up among the rows in file order; if absent
the conversion fails; otherwise the first matching row's translation is
applied to x and z (y, the altitude, passes through unchanged) and
chained anchors are resolved with iteration bounded by the row count. -/
def local_to_world_first (rows : List AnchorRow) (tile : Nat) (x y z : Int) :
    Option (Int × Int × Int) :=
  match rows.find? (fun r => r.tile == tile) with
  | none => none
  | some r =>
    match chain_translate rows rows.length r.anchorTile (x + r.dx) (z + r.dz) with
    | none => none
    | some (gx, gz) => some (gx, y, gz)

/-- `CustomPointers::is_on_torrent` from `src/custom_pointers.rs`: the
resolved mount-state ("HorseState") read is mapped to `value != 0`,
defaulting to `false` when the pointer chain is unavailable. The read
itself is the `Option Int` argument. -/
def is_on_torrent (horse_state : Option Int) : Bool :=
  (horse_state.map (fun v => v != 0)).getD false

/-- The list of early game versions matched in `CustomPointers::new`
(`src/custom_pointers.rs`): `V1_02_0` through `V1_06_0`. The variants of
the external crate's `Version` enum are modelled as their tag strings. -/
def earlyVersions : List String :=
  ["V1_02_0", "V1_02_1", "V1_02_2", "V1_02_3",
   "V1_03_0", "V1_03_1", "V1_03_2",
   "V1_04_0", "V1_04_1", "V1_05_0", "V1_06_0"]

/-- The version→offset selection in `CustomPointers::new`
(`src/custom_pointers.rs`): the listed early versions map to `0x18468`,
every other tag falls through the `_` arm to `0x1E508`. -/
def player_ins_offset (v : String) : Nat :=
  if v ∈ earlyVersions then 0x18468 else 0x1E508

/-- The mutable state of `RouteTracker` (`src/tracker.rs`) relevant to
the sampling engine. The transformer is its conversion function; fields
owned by external collaborators (raw pointers, config, UI) are omitted
except for the values the engine reads from them. -/
structure RouteTracker where
  route : List RoutePoint
  is_recording : Bool
  start_time : Option Nat
  last_record_time : Nat
  record_interval : Nat
  show_ui : Bool
  status_message : Option (String × Nat)
  base_dir : String
  routes_directory : String
  transform : Nat → Int → Int → Int → Option (Int × Int × Int)

/-- The per-tick inputs of `RouteTracker::record_position`: the current
monotonic instant and the three foreign-memory reads. -/
structure TickEvent where
  now : Nat
  position : Option (Int × Int × Int)
  map_id : Option Nat
  horse_state : Option Int

/-- `RouteTracker::start_recording` (`src/tracker.rs` lines 118-123):
clears the trajectory, records the current instant as session start,
enters Recording. `last_record_time` is left untouched. -/
def start_recording (t : RouteTracker) (now : Nat) : RouteTracker :=
  { t with route := [], start_time := some now, is_recording := true }

/-- `RouteTracker::stop_recording` (`src/tracker.rs` lines 126-129):
only clears the recording flag; the trajectory is retained. -/
def stop_recording (t : RouteTracker) : RouteTracker :=
  { t with is_recording := false }

/-- The `RoutePoint` pushed by `RouteTracker::record_position` once the
position `(x, y, z)` and tile id `m` have resolved: timestamp from the
session start (defaulting to 0 when unset), global coordinates from the
transformer with the local coordinates as fallback, mount flag from
`is_on_torrent`. -/
def sample_point (t : RouteTracker) (ev : TickEvent) (x y z : Int) (m : Nat) : RoutePoint :=
  let timestamp_ms := (t.start_time.map (fun s => ev.now - s)).getD 0
  let g := (t.transform m x y z).getD (x, y, z)
  { x := x, y := y, z := z,
    global_x := g.1, global_y := g.2.1, global_z := g.2.2,
    map_id := m, map_id_str := format_map_id m,
    timestamp_ms := timestamp_ms,
    on_torrent := is_on_torrent ev.horse_state }

/-- `RouteTracker::record_position` (`src/tracker.rs` lines 132-174):
no-op unless Recording; no-op while the elapsed time since the last
accepted sample is below the interval; no-op when either the position or
the tile id fails to resolve; otherwise appends one `sample_point` and
updates the last-sample instant to now. -/
def record_position (t : RouteTracker) (ev : TickEvent) : RouteTracker :=
  if !t.is_recording then t
  else if ev.now - t.last_record_time < t.record_interval then t
  else
    match ev.position, ev.map_id with
    | some (x, y, z), some m =>
      { t with route := t.route ++ [sample_point t ev x y z m],
               last_record_time := ev.now }
    | none, _ => t
    | some _, none => t

/-- `RouteTracker::set_status` (`src/tracker.rs` lines 193-195). -/
def set_status (t : RouteTracker) (message : String) (now : Nat) : RouteTracker :=
  { t with status_message := some (message, now) }

/-- A sequence of `record_position` calls, one per host update cycle. -/
def run_ticks (t : RouteTracker) : List TickEvent → RouteTracker
  | [] => t
  | ev :: evs => run_ticks (record_position t ev) evs

/-- Zero-padded 2-digit decimal rendering, as `format!("{:02}")`. -/
def pad2 (n : Nat) : String :=
  if n < 10 then "0" ++ toString n else toString n

/-- Zero-padded 4-digit decimal rendering, as `format!("{:04}")`. -/
def pad4 (n : Nat) : String :=
  if n < 10 then "000" ++ toString n
  else if n < 100 then "00" ++ toString n
  else if n < 1000 then "0" ++ toString n
  else toString n

/-- `generate_timestamp` from `src/route.rs`: approximate calendar math
over the wall-clock seconds-since-epoch reading, used only for
filenames. The `SystemTime` reading is the explicit argument. -/
def generate_timestamp (secs : Nat) : String :=
  let days := secs / 86400
  let years := 1970 + days / 365
  let remaining_days := days % 365
  let months := remaining_days / 30 + 1
  let day := remaining_days % 30 + 1
  let hours := (secs % 86400) / 3600
  let minutes := (secs % 3600) / 60
  let seconds := secs % 60
  pad4 years ++ "-" ++ pad2 months ++ "-" ++ pad2 day ++ " "
    ++ pad2 hours ++ ":" ++ pad2 minutes ++ ":" ++ pad2 seconds

/-- Outcomes of the filesystem operations attempted during a save; each
field tells whether the corresponding operation would succeed. -/
structure FsEnv where
  dir_exists : Bool
  create_dir_ok : Bool
  serialize_ok : Bool
  create_file_ok : Bool
  write_ok : Bool

/-- An I/O action attempted by `save_route_to_file`. -/
inductive FsEffect where
  | createDir (path : String)
  | createFile (path : String)
  | writeFile (path : String)
deriving DecidableEq, Repr

/-- The observable outcome of `save_route_to_file`: the returned
`Result` (error description or output path), the I/O actions attempted
in order, and the document written on success. -/
structure SaveOutcome where
  result : Except String String
  effects : List FsEffect
  written : Option SavedRoute

/-- `save_route_to_file` from `src/route.rs` (lines 85-133): rejects an
empty trajectory first (before any I/O); creates the routes directory
when absent; derives a timestamp filename with `:` and space
substituted; computes the duration from the last point's elapsed-ms;
builds the `SavedRoute`; serializes and writes it, surfacing each
failure stage as a distinct described error. -/
def save_route_to_file (route : List RoutePoint) (base_dir routes_directory : String)
    (interval_ms : Nat) (env : FsEnv) (secs : Nat) : SaveOutcome :=
  if route.isEmpty then
    { result := .error "No route data to save", effects := [], written := none }
  else
    let routes_dir := base_dir ++ "/" ++ routes_directory
    let dirEffects := if !env.dir_exists then [FsEffect.createDir routes_dir] else []
    if !env.dir_exists && !env.create_dir_ok then
      { result := .error "Failed to create routes directory",
        effects := dirEffects, written := none }
    else
      let now := generate_timestamp secs
      let filename := "route_" ++ ((now.replace ":" "-").replace " " "_") ++ ".json"
      let filepath := routes_dir ++ "/" ++ filename
      let duration_secs := (route.getLast?.map (fun p => (p.timestamp_ms : ℚ) / 1000)).getD 0
      let saved_route : SavedRoute :=
        { name := "Route " ++ now, recorded_at := now,
          duration_secs := duration_secs, interval_ms := interval_ms,
          point_count := route.length, points := route }
      if !env.serialize_ok then
        { result := .error "Failed to serialize route",
          effects := dirEffects, written := none }
      else if !env.create_file_ok then
        { result := .error "Failed to create file",
          effects := dirEffects ++ [FsEffect.createFile filepath], written := none }
      else if !env.write_ok then
        { result := .error "Failed to write file",
          effects := dirEffects ++ [FsEffect.createFile filepath, FsEffect.writeFile filepath],
          written := none }
      else
        { result := .ok filepath,
          effects := dirEffects ++ [FsEffect.createFile filepath, FsEffect.writeFile filepath],
          written := some saved_route }

/-- `RouteTracker::save_route` (`src/tracker.rs` lines 177-190): calls
`save_route_to_file` on the accumulated trajectory. It takes the tracker
by shared reference, so the tracker state is returned unchanged. -/
def save_route (t : RouteTracker) (env : FsEnv) (secs : Nat) :
    SaveOutcome × RouteTracker :=
  (save_route_to_file t.route t.base_dir t.routes_directory t.record_interval env secs, t)

/-! ## Basic facts about `record_position` -/

/-- A tick is a no-op when not recording. -/
lemma record_position_of_not_recording (t : RouteTracker) (ev : TickEvent)
    (h : t.is_recording = false) : record_position t ev = t := by
  simp [record_position, h]

/-- A tick is a no-op while the interval has not elapsed. -/
lemma record_position_of_not_due (t : RouteTracker) (ev : TickEvent)
    (h : ev.now - t.last_record_time < t.record_interval) :
    record_position t ev = t := by
  unfold record_position
  by_cases hrec : t.is_recording <;> simp [hrec, h]

/-- The append case of `record_position`. -/
lemma record_position_append (t : RouteTracker) (ev : TickEvent)
    (x y z : Int) (m : Nat)
    (hrec : t.is_recording = true)
    (hdue : ¬ ev.now - t.last_record_time < t.record_interval)
    (hpos : ev.position = some (x, y, z)) (hmap : ev.map_id = some m) :
    record_position t ev =
      { t with route := t.route ++ [sample_point t ev x y z m],
               last_record_time := ev.now } := by
  simp [record_position, hrec, hdue, hpos, hmap]

/-- The skip case of `record_position`: a missing read is a no-op. -/
lemma record_position_of_unavailable (t : RouteTracker) (ev : TickEvent)
    (h : ev.position = none ∨ ev.map_id = none) :
    record_position t ev = t := by
  unfold record_position
  rcases h with h | h
  · by_cases hrec : t.is_recording <;>
      by_cases hdue : ev.now - t.last_record_time < t.record_interval <;>
        simp [hrec, hdue, h]
  · by_cases hrec : t.is_recording <;>
      by_cases hdue : ev.now - t.last_record_time < t.record_interval <;>
        cases hp : ev.position with
        | none => simp [hrec, hdue, hp]
        | some pos =>
          obtain ⟨px, py, pz⟩ := pos
          simp [hrec, hdue, hp, h]

/-- `record_position` never changes the recording flag. -/
lemma record_position_is_recording (t : RouteTracker) (ev : TickEvent) :
    (record_position t ev).is_recording = t.is_recording := by
  unfold record_position
  split
  · rfl
  · split
    · rfl
    · split <;> rfl

/-- `record_position` never changes the session start. -/
lemma record_position_start_time (t : RouteTracker) (ev : TickEvent) :
    (record_position t ev).start_time = t.start_time := by
  unfold record_position
  split
  · rfl
  · split
    · rfl
    · split <;> rfl

/-- `record_position` never changes the configured interval. -/
lemma record_position_record_interval (t : RouteTracker) (ev : TickEvent) :
    (record_position t ev).record_interval = t.record_interval := by
  unfold record_position
  split
  · rfl
  · split
    · rfl
    · split <;> rfl

/-- While not recording, any run of ticks is a no-op. -/
lemma run_ticks_of_not_recording (evs : List TickEvent) (t : RouteTracker)
    (h : t.is_recording = false) : run_ticks t evs = t := by
  induction evs with
  | nil => rfl
  | cons ev evs ih =>
    simp only [run_ticks, record_position_of_not_recording t ev h]
    exact ih

/-! ## Claim theorems -/

/-- C3: after `start()` (from either state) the trajectory is empty, the
session start is the current instant, and the state is Recording. -/
theorem start_recording_resets (t : RouteTracker) (now : Nat) :
    (start_recording t now).route = [] ∧
    (start_recording t now).start_time = some now ∧
    (start_recording t now).is_recording = true :=
  ⟨rfl, rfl, rfl⟩

/-- C2: a due tick during Recording is skipped entirely (state fully
unchanged, so no point is appended and the last-sample instant keeps its
value) when position or tile id is unavailable, and appends exactly one
point, updating the last-sample instant, when both resolve. -/
theorem due_tick_requires_position_and_tile (t : RouteTracker) (ev : TickEvent)
    (hrec : t.is_recording = true)
    (hdue : ¬ ev.now - t.last_record_time < t.record_interval) :
    ((ev.position = none ∨ ev.map_id = none) → record_position t ev = t) ∧
    (∀ x y z m, ev.position = some (x, y, z) → ev.map_id = some m →
      (record_position t ev).route = t.route ++ [sample_point t ev x y z m] ∧
      (record_position t ev).last_record_time = ev.now) := by
  refine ⟨fun h => record_position_of_unavailable t ev h, fun x y z m hpos hmap => ?_⟩
  rw [record_position_append t ev x y z m hrec hdue hpos hmap]
  exact ⟨rfl, rfl⟩

/-- Witness for C2: a concrete due tick with an unavailable position is
a no-op. -/
def demo_tracker : RouteTracker :=
  { route := [], is_recording := true, start_time := some 0,
    last_record_time := 0, record_interval := 500, show_ui := true,
    status_message := none, base_dir := ".", routes_directory := "routes",
    transform := local_to_world_first [] }

theorem due_tick_requires_position_and_tile_witness :
    record_position demo_tracker ⟨600, none, some 1006632960, none⟩ = demo_tracker :=
  (due_tick_requires_position_and_tile demo_tracker ⟨600, none, some 1006632960, none⟩
    rfl (by decide)).1 (Or.inl rfl)

/-- C5: the appended point's global coordinates come from the
transformer, falling back to the local coordinates when conversion
fails; with an empty anchor table the conversion fails for every tile
id. -/
theorem transform_failure_falls_back_to_local (t : RouteTracker) (ev : TickEvent)
    (x y z : Int) (m : Nat)
    (hrec : t.is_recording = true)
    (hdue : ¬ ev.now - t.last_record_time < t.record_interval)
    (hpos : ev.position = some (x, y, z)) (hmap : ev.map_id = some m) :
    (record_position t ev).route = t.route ++ [sample_point t ev x y z m] ∧
    (t.transform m x y z = none →
      (sample_point t ev x y z m).global_x = x ∧
      (sample_point t ev x y z m).global_y = y ∧
      (sample_point t ev x y z m).global_z = z) ∧
    (∀ gx gy gz, t.transform m x y z = some (gx, gy, gz) →
      (sample_point t ev x y z m).global_x = gx ∧
      (sample_point t ev x y z m).global_y = gy ∧
      (sample_point t ev x y z m).global_z = gz) ∧
    (∀ tile a b c, local_to_world_first [] tile a b c = none) := by
  refine ⟨?_, ?_, ?_, ?_⟩
  · rw [record_position_append t ev x y z m hrec hdue hpos hmap]
  · intro h
    simp [sample_point, h]
  · intro gx gy gz h
    simp [sample_point, h]
  · intro tile a b c
    rfl

/-- Witness for C5: with the empty-anchor transformer the concretely
appended sample keeps its local coordinates as global ones. -/
theorem transform_failure_falls_back_to_local_witness :
    (sample_point demo_tracker ⟨600, some (1, 2, 3), some 60, none⟩ 1 2 3 60).global_x = 1 ∧
    (sample_point demo_tracker ⟨600, some (1, 2, 3), some 60, none⟩ 1 2 3 60).global_y = 2 ∧
    (sample_point demo_tracker ⟨600, some (1, 2, 3), some 60, none⟩ 1 2 3 60).global_z = 3 :=
  (transform_failure_falls_back_to_local demo_tracker ⟨600, some (1, 2, 3), some 60, none⟩
    1 2 3 60 rfl (by decide) rfl rfl).2.1 rfl

/-- C9: the mount flag defaults to false when its pointer chain is
unavailable, equals (code ≠ 0) when it resolves, and its unavailability
never prevents the sample from being appended. -/
theorem on_torrent_defaults_and_never_skips (t : RouteTracker) (ev : TickEvent)
    (x y z : Int) (m : Nat)
    (hrec : t.is_recording = true)
    (hdue : ¬ ev.now - t.last_record_time < t.record_interval)
    (hpos : ev.position = some (x, y, z)) (hmap : ev.map_id = some m)
    (hhs : ev.horse_state = none) :
    is_on_torrent none = false ∧
    (∀ v : Int, is_on_torrent (some v) = (v != 0)) ∧
    (record_position t ev).route = t.route ++ [sample_point t ev x y z m] ∧
    (sample_point t ev x y z m).on_torrent = false := by
  refine ⟨rfl, fun v => rfl, ?_, ?_⟩
  · rw [record_position_append t ev x y z m hrec hdue hpos hmap]
  · simp [sample_point, is_on_torrent, hhs]

/-- Witness for C9: a concrete due tick with an unavailable mount-state
chain still yields a sample, with the flag defaulted to false. -/
theorem on_torrent_defaults_and_never_skips_witness :
    (sample_point demo_tracker ⟨600, some (1, 2, 3), some 60, none⟩ 1 2 3 60).on_torrent = false :=
  (on_torrent_defaults_and_never_skips demo_tracker ⟨600, some (1, 2, 3), some 60, none⟩
    1 2 3 60 rfl (by decide) rfl rfl rfl).2.2.2

/-- C10: when no session start is recorded, a due appending tick stores
timestamp 0 instead of failing: the timestamp computation is total. -/
theorem timestamp_defaults_to_zero (t : RouteTracker) (ev : TickEvent)
    (x y z : Int) (m : Nat)
    (hrec : t.is_recording = true)
    (hdue : ¬ ev.now - t.last_record_time < t.record_interval)
    (hpos : ev.position = some (x, y, z)) (hmap : ev.map_id = some m)
    (hstart : t.start_time = none) :
    (record_position t ev).route = t.route ++ [sample_point t ev x y z m] ∧
    (sample_point t ev x y z m).timestamp_ms = 0 := by
  refine ⟨?_, ?_⟩
  · rw [record_position_append t ev x y z m hrec hdue hpos hmap]
  · simp [sample_point, hstart]

def demo_tracker_nostart : RouteTracker :=
  { demo_tracker with start_time := none }

/-- Witness for C10: a concrete appended sample with no session start
carries timestamp 0. -/
theorem timestamp_defaults_to_zero_witness :
    (sample_point demo_tracker_nostart ⟨600, some (1, 2, 3), some 60, none⟩ 1 2 3 60).timestamp_ms = 0 :=
  (timestamp_defaults_to_zero demo_tracker_nostart ⟨600, some (1, 2, 3), some 60, none⟩
    1 2 3 60 rfl (by decide) rfl rfl rfl).2

/-- C8: version-to-offset selection is total (it is a total function by
construction): each of the known early versions yields `0x18468`, and
every other tag, future ones included, yields the catch-all `0x1E508`. -/
theorem player_ins_offset_table (v : String) :
    (v ∈ earlyVersions → player_ins_offset v = 0x18468) ∧
    (v ∉ earlyVersions → player_ins_offset v = 0x1E508) := by
  constructor <;> intro h <;> simp [player_ins_offset, h]

/-- Witness for C8: a known early version and an unknown future tag. -/
theorem player_ins_offset_table_witness :
    player_ins_offset "V1_02_0" = 0x18468 ∧ player_ins_offset "V2_00_0" = 0x1E508 :=
  ⟨(player_ins_offset_table "V1_02_0").1 (by decide),
   (player_ins_offset_table "V2_00_0").2 (by decide)⟩

/-- C6: saving an empty trajectory fails with the empty-route error
before attempting any I/O action, and a save never mutates the tracker,
so the in-memory trajectory survives any failed save for a retry. -/
theorem save_empty_rejected_before_io :
    (∀ (bd rd : String) (ims : Nat) (env : FsEnv) (secs : Nat),
      save_route_to_file [] bd rd ims env secs =
        { result := .error "No route data to save", effects := [], written := none }) ∧
    (∀ (t : RouteTracker) (env : FsEnv) (secs : Nat),
      (save_route t env secs).2 = t) := by
  exact ⟨fun bd rd ims env secs => rfl, fun t env secs => rfl⟩

/-- C7: for a non-empty trajectory a fully successful save writes a
`SavedRoute` whose duration is the last point's elapsed-ms divided by
1000, whose point count is the trajectory's length, and whose points
are exactly the trajectory in order. -/
theorem save_builds_saved_route (route : List RoutePoint) (bd rd : String)
    (ims : Nat) (env : FsEnv) (secs : Nat) (q : RoutePoint)
    (hq : route.getLast? = some q)
    (hdir : env.dir_exists = true ∨ env.create_dir_ok = true)
    (hser : env.serialize_ok = true) (hcf : env.create_file_ok = true)
    (hw : env.write_ok = true) :
    (save_route_to_file route bd rd ims env secs).written =
      some { name := "Route " ++ generate_timestamp secs,
             recorded_at := generate_timestamp secs,
             duration_secs := (q.timestamp_ms : ℚ) / 1000,
             interval_ms := ims,
             point_count := route.length,
             points := route } := by
  have hne : route.isEmpty = false := by
    cases route with
    | nil => simp at hq
    | cons a l => rfl
  have hdir' : (!env.dir_exists && !env.create_dir_ok) = false := by
    rcases hdir with h | h <;> simp [h]
  simp [save_route_to_file, hne, hdir', hser, hcf, hw, hq]

def demo_point (ts : Nat) : RoutePoint :=
  { x := 0, y := 0, z := 0, global_x := 0, global_y := 0, global_z := 0,
    map_id := 1006632960, map_id_str := format_map_id 1006632960,
    timestamp_ms := ts, on_torrent := false }

def demo_route : List RoutePoint := [demo_point 0, demo_point 500]

def demo_env : FsEnv :=
  { dir_exists := true, create_dir_ok := true, serialize_ok := true,
    create_file_ok := true, write_ok := true }

/-- Witness for C7: the two-point trajectory with elapsed-ms values
0 and 500 saves with duration 500/1000 seconds and point count 2. -/
theorem save_builds_saved_route_witness :
    (save_route_to_file demo_route "." "routes" 1000 demo_env 0).written =
      some { name := "Route " ++ generate_timestamp 0,
             recorded_at := generate_timestamp 0,
             duration_secs := ((demo_point 500).timestamp_ms : ℚ) / 1000,
             interval_ms := 1000,
             point_count := demo_route.length,
             points := demo_route } :=
  save_builds_saved_route demo_route "." "routes" 1000 demo_env 0 (demo_point 500)
    rfl (Or.inl rfl) rfl rfl rfl

/-- C4: `stop()` followed by any run of ticks appends no points and
`stop()` itself keeps the trajectory; a tick never removes points (it at
most appends one); saving and status updates leave the trajectory
untouched — so among the engine operations only starting a new
recording discards recorded points. -/
theorem only_start_discards_points :
    (∀ (t : RouteTracker) (evs : List TickEvent),
      (run_ticks (stop_recording t) evs).route = t.route) ∧
    (∀ t : RouteTracker, (stop_recording t).route = t.route) ∧
    (∀ (t : RouteTracker) (ev : TickEvent),
      (record_position t ev).route = t.route ∨
      ∃ p, (record_position t ev).route = t.route ++ [p]) ∧
    (∀ (t : RouteTracker) (env : FsEnv) (secs : Nat),
      (save_route t env secs).2 = t) ∧
    (∀ (t : RouteTracker) (msg : String) (now : Nat),
      (set_status t msg now).route = t.route) := by
  refine ⟨?_, fun t => rfl, ?_, fun t env secs => rfl, fun t msg now => rfl⟩
  · intro t evs
    rw [run_ticks_of_not_recording evs (stop_recording t) rfl]
    rfl
  · intro t ev
    by_cases hrec : t.is_recording
    · by_cases hdue : ev.now - t.last_record_time < t.record_interval
      · left; rw [record_position_of_not_due t ev hdue]
      · cases hp : ev.position with
        | none => left; rw [record_position_of_unavailable t ev (Or.inl hp)]
        | some pos =>
          obtain ⟨px, py, pz⟩ := pos
          cases hm : ev.map_id with
          | none => left; rw [record_position_of_unavailable t ev (Or.inr hm)]
          | some m =>
            right
            exact ⟨sample_point t ev px py pz m,
              by rw [record_position_append t ev px py pz m hrec hdue hp hm]⟩
    · left
      rw [record_position_of_not_recording t ev (by simpa using hrec)]

/-! ## Interval gating -/

/-- Consecutively appended points are at least `I` elapsed-ms apart. -/
def Gapped (I : Nat) (l : List RoutePoint) : Prop :=
  List.Chain' (fun p q => p.timestamp_ms + I ≤ q.timestamp_ms) l

/-- One tick preserves the gating invariant: the trajectory stays
`Gapped`, and the last-sample instant stays aligned with the last
point's timestamp (offset by the session start) and below the clock. -/
lemma record_position_gap_inv (t : RouteTracker) (ev : TickEvent) (s c : Nat)
    (hst : t.start_time = some s) (hsc : s ≤ c) (hc : c ≤ ev.now)
    (hg : Gapped t.record_interval t.route)
    (hl : ∀ q, t.route.getLast? = some q →
      t.last_record_time = s + q.timestamp_ms ∧ t.last_record_time ≤ c) :
    Gapped t.record_interval (record_position t ev).route ∧
    (∀ q, (record_position t ev).route.getLast? = some q →
      (record_position t ev).last_record_time = s + q.timestamp_ms ∧
      (record_position t ev).last_record_time ≤ ev.now) := by
  have hskip : record_position t ev = t →
      Gapped t.record_interval (record_position t ev).route ∧
      (∀ q, (record_position t ev).route.getLast? = some q →
        (record_position t ev).last_record_time = s + q.timestamp_ms ∧
        (record_position t ev).last_record_time ≤ ev.now) := by
    intro heq
    rw [heq]
    exact ⟨hg, fun q hq => ⟨(hl q hq).1, le_trans (hl q hq).2 hc⟩⟩
  cases hrec : t.is_recording with
  | false => exact hskip (record_position_of_not_recording t ev hrec)
  | true =>
    by_cases hdue : ev.now - t.last_record_time < t.record_interval
    · exact hskip (record_position_of_not_due t ev hdue)
    · cases hp : ev.position with
      | none => exact hskip (record_position_of_unavailable t ev (Or.inl hp))
      | some pos =>
        obtain ⟨px, py, pz⟩ := pos
        cases hm : ev.map_id with
        | none => exact hskip (record_position_of_unavailable t ev (Or.inr hm))
        | some m =>
          rw [record_position_append t ev px py pz m hrec hdue hp hm]
          have hts : (sample_point t ev px py pz m).timestamp_ms = ev.now - s := by
            simp [sample_point, hst]
          constructor
          · rw [Gapped, List.chain'_append]
            refine ⟨hg, List.chain'_singleton _, ?_⟩
            intro q hq p hp'
            simp only [List.head?_cons, Option.mem_def, Option.some.injEq] at hp'
            subst hp'
            obtain ⟨hlr, hlc⟩ := hl q hq
            rw [hts]
            omega
          · intro q hq
            rw [List.getLast?_concat] at hq
            injection hq with hq
            subst hq
            rw [hts]
            constructor
            · show ev.now = s + (ev.now - s)
              omega
            · exact le_rfl

/-- Running a run of ticks under a monotone clock keeps the trajectory
`Gapped`. `c` is a lower bound for every clock reading in the run. -/
lemma run_ticks_gap_inv (evs : List TickEvent) (t : RouteTracker) (s c : Nat)
    (hst : t.start_time = some s) (hsc : s ≤ c)
    (hchain : List.Chain (fun a b => a ≤ b) c (evs.map TickEvent.now))
    (hg : Gapped t.record_interval t.route)
    (hl : ∀ q, t.route.getLast? = some q →
      t.last_record_time = s + q.timestamp_ms ∧ t.last_record_time ≤ c) :
    Gapped t.record_interval (run_ticks t evs).route := by
  induction evs generalizing t c with
  | nil => exact hg
  | cons ev evs ih =>
    rw [List.map_cons, List.chain_cons] at hchain
    obtain ⟨hc, hchain'⟩ := hchain
    obtain ⟨hg', hl'⟩ := record_position_gap_inv t ev s c hst hsc hc hg hl
    have hint := record_position_record_interval t ev
    have hg2 : Gapped (record_position t ev).record_interval
        (record_position t ev).route := by rw [hint]; exact hg'
    have hst2 : (record_position t ev).start_time = some s :=
      (record_position_start_time t ev).trans hst
    show Gapped t.record_interval (run_ticks (record_position t ev) evs).route
    rw [← hint]
    exact ih (record_position t ev) ev.now hst2 (hsc.trans hc) hchain' hg2 hl'

/-- C1: for every run of ticks after `start()` under a monotone clock
(session start at or before every tick instant, tick instants
nondecreasing), no two consecutively appended points have elapsed-ms
values differing by less than the configured interval; the first point
of the session is unconstrained. -/
theorem tick_interval_gapped (t : RouteTracker) (s : Nat) (evs : List TickEvent)
    (hchain : List.Chain (fun a b => a ≤ b) s (evs.map TickEvent.now)) :
    Gapped t.record_interval (run_ticks (start_recording t s) evs).route := by
  have h := run_ticks_gap_inv evs (start_recording t s) s s rfl le_rfl hchain
    List.chain'_nil (by intro q hq; simp [start_recording] at hq)
  exact h

def demo_events : List TickEvent :=
  [{ now := 600, position := some (1, 2, 3), map_id := some 60, horse_state := none },
   { now := 1200, position := some (4, 5, 6), map_id := some 60, horse_state := some 1 }]

/-- Witness for C1: a concrete monotone two-tick run stays gapped. -/
theorem tick_interval_gapped_witness :
    Gapped demo_tracker.record_interval
      (run_ticks (start_recording demo_tracker 0) demo_events).route :=
  tick_interval_gapped demo_tracker 0 demo_events
    (by norm_num [demo_events, List.chain_cons])
